import Mathlib

/-!
Shallow embedding of the technical-indicator / signal-aggregation core of the
stock-trading-chatbot repository.  Python floats are modelled as rationals
(exact arithmetic); `math.sqrt` and numeric string formatting are external
library calls and are passed in as function parameters, so every definition
stays executable.  Optional values (`None`) are `Option`; Python truthiness
of optional floats (`if x:`) is modelled by `truthy`.

Sources embedded:
* `src/lambda-micro/chatbot-router/ml_agent_lite.py` (class MLTradingAgent)
* `src/shared/technical_analysis.py` (TechnicalAnalyzer.check_golden_cross)
-/

namespace StockBot

/-- Trading signal / recommendation direction (the strings buy, sell, hold). -/
inductive Direction where
  | buy
  | sell
  | hold
deriving DecidableEq

/-- Risk classification returned by MLTradingAgent._assess_risk. -/
inductive RiskLevel where
  | LOW
  | MEDIUM
  | HIGH
deriving DecidableEq

/-- Result dictionary of MLTradingAgent.calculate_macd. -/
structure MacdData where
  macd : ℚ
  signal : ℚ
  histogram : ℚ
deriving DecidableEq

/-- Result dictionary of MLTradingAgent.calculate_bollinger_bands. -/
structure BBands where
  upper : ℚ
  middle : ℚ
  lower : ℚ
deriving DecidableEq

/-- MLTradingAgent.mean: sum(values)/len(values) if values else 0. -/
def mean (values : List ℚ) : ℚ :=
  if values.isEmpty then 0 else values.sum / (values.length : ℚ)

/-- Python truthiness of an optional float: None and 0.0 are falsy. -/
def truthy : Option ℚ → Bool
  | none => false
  | some x => decide (x ≠ 0)

/-- MLTradingAgent.std_dev: population std deviation; `math.sqrt` is the
external square-root routine passed as `sqrtFn`. -/
def std_dev (sqrtFn : ℚ → ℚ) (values : List ℚ) : ℚ :=
  if values.length < 2 then 0
  else
    let avg := values.sum / (values.length : ℚ)
    let variance := (values.map (fun x => (x - avg) ^ 2)).sum / (values.length : ℚ)
    sqrtFn variance

/-- MLTradingAgent.calculate_sma: mean of the last `period` prices,
None when the series is shorter than `period`. -/
def calculate_sma (prices : List ℚ) (period : ℕ) : Option ℚ :=
  if prices.length < period then none
  else some (mean (prices.drop (prices.length - period)))

/-- MLTradingAgent.calculate_ema: seed with the mean of the first `period`
prices, then fold the remaining prices with the EMA update rule. -/
def calculate_ema (prices : List ℚ) (period : ℕ) : Option ℚ :=
  if prices.length < period then none
  else
    let multiplier : ℚ := 2 / ((period : ℚ) + 1)
    some ((prices.drop period).foldl
      (fun ema price => (price - ema) * multiplier + ema)
      (mean (prices.take period)))

/-- Day-over-day price changes: prices[i] - prices[i-1] for i = 1.. -/
def deltas (prices : List ℚ) : List ℚ :=
  List.zipWith (fun a b => a - b) prices.tail prices

/-- Gains list of calculate_rsi: positive changes, zero otherwise. -/
def gains (prices : List ℚ) : List ℚ :=
  (deltas prices).map (fun c => if 0 < c then c else 0)

/-- Losses list of calculate_rsi: |change| for non-positive changes, zero
for positive ones. -/
def losses (prices : List ℚ) : List ℚ :=
  (deltas prices).map (fun c => if 0 < c then 0 else -c)

/-- avg_gain of calculate_rsi: mean of the last `period` gains. -/
def avgGain (prices : List ℚ) (period : ℕ) : ℚ :=
  mean ((gains prices).drop ((gains prices).length - period))

/-- avg_loss of calculate_rsi: mean of the last `period` losses. -/
def avgLoss (prices : List ℚ) (period : ℕ) : ℚ :=
  mean ((losses prices).drop ((losses prices).length - period))

/-- MLTradingAgent.calculate_rsi. -/
def calculate_rsi (prices : List ℚ) (period : ℕ) : Option ℚ :=
  if prices.length < period + 1 then none
  else if (gains prices).length < period then none
  else if avgLoss prices period = 0 then some 100
  else some (100 - 100 / (1 + avgGain prices period / avgLoss prices period))

/-- MLTradingAgent.calculate_macd: macd = ema12 - ema26 and the shortcut
signal line macd * 0.9 taken verbatim from the source. -/
def calculate_macd (prices : List ℚ) : Option MacdData :=
  if prices.length < 26 then none
  else
    match calculate_ema prices 12, calculate_ema prices 26 with
    | some ema12, some ema26 =>
        let macd := ema12 - ema26
        let signal := macd * (9 / 10)
        some ⟨macd, signal, macd - signal⟩
    | _, _ => none

/-- MLTradingAgent.calculate_bollinger_bands. -/
def calculate_bollinger_bands (sqrtFn : ℚ → ℚ) (prices : List ℚ) (period : ℕ) :
    Option BBands :=
  if prices.length < period then none
  else
    match calculate_sma prices period with
    | none => none
    | some sma =>
        let std := std_dev sqrtFn (prices.drop (prices.length - period))
        some ⟨sma + 2 * std, sma, sma - 2 * std⟩

/-- The inline momentum computation of analyze_stock:
((prices[-1] - prices[-k]) / prices[-k] * 100) if len(prices) >= k else 0,
with k = 10 resp. 20 in the source. -/
def momentumAt (prices : List ℚ) (k : ℕ) : ℚ :=
  if k ≤ prices.length then
    (prices.getD (prices.length - 1) 0 - prices.getD (prices.length - k) 0) /
      prices.getD (prices.length - k) 0 * 100
  else 0

/-- MLTradingAgent._assess_risk; the Python guard `rsi and (...)` skips the
RSI tests when rsi is None or exactly 0 (falsy). -/
def assess_risk (volatility_pct : ℚ) (rsi : Option ℚ) : RiskLevel :=
  if 5 < volatility_pct ∨ (truthy rsi = true ∧ (rsi.getD 0 < 25 ∨ 75 < rsi.getD 0)) then
    .HIGH
  else if 3 < volatility_pct ∨ (truthy rsi = true ∧ (rsi.getD 0 < 35 ∨ 65 < rsi.getD 0)) then
    .MEDIUM
  else
    .LOW

/-- Number of signals with the given direction (signals.count in the source;
confidences are zipped alongside, so we carry pairs). -/
def countDir (signals : List (Direction × ℚ)) (d : Direction) : ℕ :=
  (signals.filter (fun s => decide (s.1 = d))).length

/-- buy_count of the aggregation block. -/
def buyCount (signals : List (Direction × ℚ)) : ℕ := countDir signals .buy

/-- sell_count of the aggregation block. -/
def sellCount (signals : List (Direction × ℚ)) : ℕ := countDir signals .sell

/-- hold_count of the aggregation block. -/
def holdCount (signals : List (Direction × ℚ)) : ℕ := countDir signals .hold

/-- Mean confidence of the signals with the given direction, 0 when there are
none (the `if buy_count > 0 else 0` guard of the source). -/
def dirScore (signals : List (Direction × ℚ)) (d : Direction) : ℚ :=
  if 0 < countDir signals d then
    mean ((signals.filter (fun s => decide (s.1 = d))).map Prod.snd)
  else 0

/-- buy_confidence of the aggregation block. -/
def buyScore (signals : List (Direction × ℚ)) : ℚ := dirScore signals .buy

/-- sell_confidence of the aggregation block. -/
def sellScore (signals : List (Direction × ℚ)) : ℚ := dirScore signals .sell

/-- The final-recommendation block of MLTradingAgent.analyze_stock
(lines 223-232): majority vote against both of the other counters, with
hold / 0.5 as the default. -/
def aggregate (signals : List (Direction × ℚ)) : Direction × ℚ :=
  if sellCount signals < buyCount signals ∧ holdCount signals < buyCount signals then
    (.buy, buyScore signals)
  else if buyCount signals < sellCount signals ∧ holdCount signals < sellCount signals then
    (.sell, sellScore signals)
  else
    (.hold, 1 / 2)

/-- Signal 4 of analyze_stock: buy when the macd line is above the signal
line, else sell. -/
def macdSignal (m : MacdData) : Direction :=
  if m.signal < m.macd then .buy else .sell

/-- The signal-generation block of analyze_stock (signals 1-6, in source
order, each contributing at most one (direction, confidence) pair). -/
def buildSignals (rsi sma20 sma50 sma200 : Option ℚ) (macd_data : Option MacdData)
    (bb : Option BBands) (current_price momentum_10 : ℚ) : List (Direction × ℚ) :=
  ((match rsi with
   | none => []
   | some r =>
       if r < 30 then [(.buy, 17/20)]
       else if 70 < r then [(.sell, 17/20)]
       else if 40 ≤ r ∧ r ≤ 60 then [(.hold, 3/5)]
       else []) : List (Direction × ℚ))
  ++ ((if truthy sma20 = true ∧ truthy sma50 = true then
        if sma50.getD 0 * (51/50) < sma20.getD 0 then [(.buy, 3/4)]
        else if sma20.getD 0 < sma50.getD 0 * (49/50) then [(.sell, 3/4)]
        else []
      else []) : List (Direction × ℚ))
  ++ ((if truthy sma50 = true ∧ truthy sma200 = true then
        if sma200.getD 0 < sma50.getD 0 then [(.buy, 7/10)] else [(.sell, 7/10)]
      else []) : List (Direction × ℚ))
  ++ ((match macd_data with
      | none => []
      | some m => [(macdSignal m, 7/10)]) : List (Direction × ℚ))
  ++ ((match bb with
      | none => []
      | some b =>
          if current_price < b.lower then [(.buy, 4/5)]
          else if b.upper < current_price then [(.sell, 4/5)]
          else []) : List (Direction × ℚ))
  ++ ((if 5 < momentum_10 then [(.buy, 13/20)]
      else if momentum_10 < -5 then [(.sell, 13/20)]
      else []) : List (Direction × ℚ))

/-- The RSI block of _generate_reasoning (`if rsi:` uses Python truthiness,
so None and a zero RSI are both skipped); `fmt` renders the value with one
decimal place (Python f-string formatting, an external routine). -/
def rsiClause (fmt : ℚ → String) (rsi : Option ℚ) : List String :=
  if truthy rsi = true then
    if rsi.getD 0 < 30 then ["🔴 RSI oversold (" ++ fmt (rsi.getD 0) ++ ")"]
    else if 70 < rsi.getD 0 then ["🔴 RSI overbought (" ++ fmt (rsi.getD 0) ++ ")"]
    else ["✓ RSI neutral (" ++ fmt (rsi.getD 0) ++ ")"]
  else []

/-- The moving-average block of _generate_reasoning. -/
def maClause (sma20 sma50 : Option ℚ) : List String :=
  if truthy sma20 = true ∧ truthy sma50 = true then
    if sma50.getD 0 < sma20.getD 0 then ["✓ Bullish MA trend"]
    else ["✗ Bearish MA trend"]
  else []

/-- The MACD block of _generate_reasoning. -/
def macdClause (macd_data : Option MacdData) : List String :=
  match macd_data with
  | none => []
  | some m => if 0 < m.histogram then ["✓ MACD bullish"] else ["✗ MACD bearish"]

/-- The Bollinger block of _generate_reasoning (`if bb and price:`; inside
the bands no clause is produced). -/
def bbClause (bb : Option BBands) (price : ℚ) : List String :=
  match bb with
  | none => []
  | some b =>
      if price ≠ 0 then
        if price < b.lower then ["💡 Price below lower BB"]
        else if b.upper < price then ["⚠️ Price above upper BB"]
        else []
      else []

/-- The momentum block of _generate_reasoning. -/
def momentumClause (momentum : ℚ) : List String :=
  if 5 < |momentum| then
    ["📈 Strong momentum " ++ (if 0 < momentum then "up" else "down")]
  else []

/-- The reasons list of MLTradingAgent._generate_reasoning, in source
order. -/
def reasonClauses (fmt : ℚ → String) (rsi sma20 sma50 : Option ℚ)
    (macd_data : Option MacdData) (bb : Option BBands)
    (price momentum : ℚ) : List String :=
  rsiClause fmt rsi ++ maClause sma20 sma50 ++ macdClause macd_data
    ++ bbClause bb price ++ momentumClause momentum

/-- MLTradingAgent._generate_reasoning: the clauses joined by the fixed
separator.  The volatility argument is accepted and ignored, as in the
source. -/
def generate_reasoning (fmt : ℚ → String) (rsi sma20 sma50 : Option ℚ)
    (macd_data : Option MacdData) (bb : Option BBands)
    (price momentum volatility : ℚ) : String :=
  String.intercalate " | " (reasonClauses fmt rsi sma20 sma50 macd_data bb price momentum)

/-- Python round(x, n): round-half-to-even at n decimal digits. -/
def pyRound (n : ℕ) (x : ℚ) : ℚ :=
  let m : ℚ := 10 ^ n
  let y := x * m
  let f : ℤ := ⌊y⌋
  let d := y - (f : ℚ)
  let r : ℤ :=
    if d < 1/2 then f
    else if 1/2 < d then f + 1
    else if f % 2 = 0 then f else f + 1
  (r : ℚ) / m

/-- The complete analysis dictionary returned by analyze_stock on success. -/
structure Recommendation where
  recommendation : Direction
  confidence : ℚ
  ml_score : ℚ
  buySignals : ℕ
  sellSignals : ℕ
  holdSignals : ℕ
  totalSignals : ℕ
  rsi : Option ℚ
  sma20 : Option ℚ
  sma50 : Option ℚ
  macd : Option ℚ
  momentum10d : ℚ
  volatilityPct : ℚ
  reasoning : String
  riskLevel : RiskLevel

/-- MLTradingAgent.analyze_stock.  The short-series branch returns the error
dictionary (modelled as Except.error with its message); otherwise every field
of the result dictionary is produced. -/
def analyze_stock (sqrtFn : ℚ → ℚ) (fmt : ℚ → String) (prices : List ℚ) :
    Except String Recommendation :=
  if prices.length < 50 then .error "Need at least 50 days of price data"
  else
    let current_price := prices.getD (prices.length - 1) 0
    let sma20 := calculate_sma prices 20
    let sma50 := calculate_sma prices 50
    let sma200 := if 200 ≤ prices.length then calculate_sma prices 200 else none
    let rsi := calculate_rsi prices 14
    let macd_data := calculate_macd prices
    let bb := calculate_bollinger_bands sqrtFn prices 20
    let momentum_10 := momentumAt prices 10
    let volatility := std_dev sqrtFn (prices.drop (prices.length - 20))
    let volatility_pct := volatility / current_price * 100
    let signals := buildSignals rsi sma20 sma50 sma200 macd_data bb current_price momentum_10
    let rec_conf := aggregate signals
    let reasoning := generate_reasoning fmt rsi sma20 sma50 macd_data bb
      current_price momentum_10 volatility_pct
    .ok
      { recommendation := rec_conf.1
        confidence := pyRound 2 rec_conf.2
        ml_score := pyRound 1 (rec_conf.2 * 100)
        buySignals := buyCount signals
        sellSignals := sellCount signals
        holdSignals := holdCount signals
        totalSignals := signals.length
        rsi := if truthy rsi = true then some (pyRound 2 (rsi.getD 0)) else none
        sma20 := if truthy sma20 = true then some (pyRound 2 (sma20.getD 0)) else none
        sma50 := if truthy sma50 = true then some (pyRound 2 (sma50.getD 0)) else none
        macd := macd_data.map (fun m => pyRound 2 m.macd)
        momentum10d := pyRound 2 momentum_10
        volatilityPct := pyRound 2 volatility_pct
        reasoning := reasoning
        riskLevel := assess_risk volatility_pct rsi }

/-- The macd line ema12 - ema26 of a price series (the quantity the code
computes as `macd` once the series is at least 26 long). -/
def macdAt (prices : List ℚ) : ℚ :=
  (calculate_ema prices 12).getD 0 - (calculate_ema prices 26).getD 0

/-- The macd-line history over growing prefixes of the price series: the
macd value ema12 - ema26 of prices[:t] for t = 26 .. len(prices).  This is
the series the spec says the signal line must be the 9-period EMA of. -/
def macdLineHistory (prices : List ℚ) : List ℚ :=
  (List.range (prices.length - 25)).map (fun k => macdAt (prices.take (26 + k)))

/-- Modelled from the spec: the true MACD signal line, the 9-period EMA of
the macd-line history (spec section 4.1, mandated in place of the source's
macd * 0.9 shortcut, which is the code under test). -/
def specSignalLine (prices : List ℚ) : Option ℚ :=
  calculate_ema (macdLineHistory prices) 9

/-- TechnicalAnalyzer rolling mean (pandas rolling(w).mean()) at row `j`:
defined only once the window is full; NaN elsewhere, modelled as none. -/
def rollingMeanAt (xs : List ℚ) (w j : ℕ) : Option ℚ :=
  if w ≤ j + 1 ∧ j < xs.length then
    some (mean ((xs.take (j + 1)).drop (j + 1 - w)))
  else none

/-- Pandas comparison a > b where either side may be NaN (false then). -/
def optGT : Option ℚ → Option ℚ → Bool
  | some a, some b => decide (b < a)
  | _, _ => false

/-- Pandas comparison a <= b where either side may be NaN (false then). -/
def optLE : Option ℚ → Option ℚ → Bool
  | some a, some b => decide (a ≤ b)
  | _, _ => false

/-- Body of the loop in TechnicalAnalyzer.check_golden_cross at offset i:
sma50[-i] > sma200[-i] and sma50[-i-1] <= sma200[-i-1]. -/
def crossCondAt (close : List ℚ) (i : ℕ) : Bool :=
  optGT (rollingMeanAt close 50 (close.length - i))
        (rollingMeanAt close 200 (close.length - i))
  && optLE (rollingMeanAt close 50 (close.length - i - 1))
           (rollingMeanAt close 200 (close.length - i - 1))

/-- TechnicalAnalyzer.check_golden_cross over the Close column. -/
def check_golden_cross (close : List ℚ) : Bool :=
  if close.length < 200 then false
  else (List.range' 1 (min 6 close.length - 1)).any (crossCondAt close)

/-- An IEEE-style extended value: NaN, the two infinities, or a finite
value (finite values idealized as exact rationals, consistent with the
rest of this development). -/
inductive XFloat where
  | nan
  | inf
  | ninf
  | val (q : ℚ)
deriving DecidableEq

/-- IEEE-style addition: NaN propagates, opposite infinities give NaN. -/
def XFloat.add : XFloat → XFloat → XFloat
  | .nan, _ => .nan
  | _, .nan => .nan
  | .inf, .ninf => .nan
  | .ninf, .inf => .nan
  | .inf, _ => .inf
  | _, .inf => .inf
  | .ninf, _ => .ninf
  | _, .ninf => .ninf
  | .val a, .val b => .val (a + b)

/-- IEEE-style negation. -/
def XFloat.neg : XFloat → XFloat
  | .nan => .nan
  | .inf => .ninf
  | .ninf => .inf
  | .val q => .val (-q)

/-- IEEE-style subtraction. -/
def XFloat.sub (a b : XFloat) : XFloat := a.add b.neg

/-- IEEE-style division: NaN propagates, inf/inf and 0/0 give NaN, a
nonzero value over zero gives a signed infinity, a finite value over an
infinity gives 0. -/
def XFloat.div : XFloat → XFloat → XFloat
  | .nan, _ => .nan
  | _, .nan => .nan
  | .inf, .inf => .nan
  | .inf, .ninf => .nan
  | .ninf, .inf => .nan
  | .ninf, .ninf => .nan
  | .inf, .val b => if b < 0 then .ninf else .inf
  | .ninf, .val b => if b < 0 then .inf else .ninf
  | .val _, .inf => .val 0
  | .val _, .ninf => .val 0
  | .val a, .val b =>
      if b = 0 then (if a = 0 then .nan else if 0 < a then .inf else .ninf)
      else .val (a / b)

/-- TechnicalAnalyzer.calculate_rsi (the pandas variant,
technical_analysis.py:44-50), evaluated at the last row of the returned
series.  `diff()` puts NaN in row 0, `delta.where(delta > 0, 0)` replaces
it (and every non-positive delta) by the number 0, so the gain and loss
series are `0 ::` the pure gains/losses lists; `rolling(period).mean()` is
NaN until the window is full, so the last row is NaN when
len(close) < period; otherwise `rs = gain / loss` is an elementwise FLOAT
division with no zero guard (0/0 = NaN, positive/0 = inf) and
`rsi = 100 - 100 / (1 + rs)`. -/
def ta_calculate_rsi_last (close : List ℚ) (period : ℕ) : XFloat :=
  if close.length < period then .nan
  else
    let g := 0 :: gains close
    let l := 0 :: losses close
    let avg_gain := mean (g.drop (g.length - period))
    let avg_loss := mean (l.drop (l.length - period))
    (XFloat.val 100).sub
      ((XFloat.val 100).div
        ((XFloat.val 1).add ((XFloat.val avg_gain).div (XFloat.val avg_loss))))

/-! ### Helper lemmas -/

/-- A nonempty mean is the sum divided by the length. -/
lemma mean_of_ne_nil (l : List ℚ) (h : l ≠ []) : mean l = l.sum / (l.length : ℚ) := by
  unfold mean
  rw [if_neg (by simpa [List.isEmpty_iff] using h)]

/-- The mean of a list of non-negative rationals is non-negative. -/
lemma mean_nonneg (l : List ℚ) (h : ∀ x ∈ l, 0 ≤ x) : 0 ≤ mean l := by
  unfold mean
  split_ifs
  · exact le_refl 0
  · exact div_nonneg (List.sum_nonneg h) (by positivity)

/-- The mean of a list of zeros is zero. -/
lemma mean_eq_zero (l : List ℚ) (h : ∀ x ∈ l, x = 0) : mean l = 0 := by
  unfold mean
  split_ifs
  · rfl
  · rw [List.sum_eq_zero h, zero_div]

/-! ### The aggregator (claim C2) -/

/-- The concrete signal list of the aggregation counterexample. -/
def c2Input : List (Direction × ℚ) := [(.buy, 17/20), (.hold, 3/5)]

/-- C2 counterexample: on the signal list [(buy, 0.85), (hold, 0.6)] the buy
count (1) exceeds the sell count (0) and the buy score 0.85 exceeds 0.5, so
the claim demands action BUY; the code's aggregation block compares the buy
count against the hold count as well and returns HOLD with confidence 0.5. -/
theorem aggregate_threshold_counterexample :
    buyCount c2Input = 1 ∧ sellCount c2Input = 0 ∧ buyScore c2Input = 17/20 ∧
    ((1:ℚ)/2 < 17/20) ∧ aggregate c2Input = (.hold, 1/2) := by
  have e : buyScore c2Input = mean [17/20] := rfl
  exact ⟨rfl, rfl, by rw [e]; norm_num [mean], by norm_num, rfl⟩

/-- C2 (amended): the aggregator returns BUY with confidence equal to the
mean of the buy-signal confidences exactly when the buy count exceeds both
the sell count and the hold count; symmetrically for SELL; in every other
case, including equal buy/sell counts and the empty signal list, it returns
HOLD with confidence 0.5. No 0.5 score threshold and no min(score, 1) clamp
is applied. -/
theorem aggregate_spec : ∀ signals : List (Direction × ℚ),
    ((aggregate signals).1 = .buy ↔
      sellCount signals < buyCount signals ∧ holdCount signals < buyCount signals)
  ∧ ((aggregate signals).1 = .sell ↔
      buyCount signals < sellCount signals ∧ holdCount signals < sellCount signals)
  ∧ ((aggregate signals).1 = .buy → (aggregate signals).2 = buyScore signals)
  ∧ ((aggregate signals).1 = .sell → (aggregate signals).2 = sellScore signals)
  ∧ ((aggregate signals).1 = .hold → (aggregate signals).2 = 1/2)
  ∧ (buyCount signals = sellCount signals → aggregate signals = (.hold, 1/2)) := by
  intro s
  unfold aggregate
  split_ifs with h1 h2 <;>
    refine ⟨?_, ?_, ?_, ?_, ?_, ?_⟩ <;> simp_all <;> omega

/-- C2 witness: the spec's own aggregation example [(buy,0.8),(buy,0.6),
(sell,0.9)] yields BUY with score mean 0.7, and a buy/sell tie yields
(HOLD, 0.5). -/
theorem aggregate_spec_witness :
    (aggregate [((.buy : Direction), (4/5 : ℚ)), (.buy, 3/5), (.sell, 9/10)]).1 = .buy
  ∧ (aggregate [((.buy : Direction), (4/5 : ℚ)), (.buy, 3/5), (.sell, 9/10)]).2
      = buyScore [((.buy : Direction), (4/5 : ℚ)), (.buy, 3/5), (.sell, 9/10)]
  ∧ buyScore [((.buy : Direction), (4/5 : ℚ)), (.buy, 3/5), (.sell, 9/10)] = 7/10
  ∧ aggregate [((.buy : Direction), (9/10 : ℚ)), (.sell, 9/10)] = (.hold, 1/2) := by
  have h1 := (aggregate_spec [((.buy : Direction), (4/5 : ℚ)), (.buy, 3/5), (.sell, 9/10)]).1.mpr
    (by decide)
  have h2 := (aggregate_spec [((.buy : Direction), (4/5 : ℚ)), (.buy, 3/5), (.sell, 9/10)]).2.2.1 h1
  have h3 := (aggregate_spec [((.buy : Direction), (9/10 : ℚ)), (.sell, 9/10)]).2.2.2.2.2
    (by decide)
  refine ⟨h1, h2, ?_, h3⟩
  have e : buyScore [((.buy : Direction), (4/5 : ℚ)), (.buy, 3/5), (.sell, 9/10)]
      = mean [4/5, 3/5] := rfl
  rw [e]
  norm_num [mean]

/-! ### The top-level entry point (claim C3) -/

/-- C3: analyze_stock returns the insufficient-data error exactly when the
price series has fewer than 50 elements, and on 50 or more elements returns
a complete Recommendation record. -/
theorem analyze_stock_error_iff :
    ∀ (sqrtFn : ℚ → ℚ) (fmt : ℚ → String) (prices : List ℚ),
    ((∃ r, analyze_stock sqrtFn fmt prices = .ok r) ↔ 50 ≤ prices.length)
  ∧ (prices.length < 50 →
      analyze_stock sqrtFn fmt prices = .error "Need at least 50 days of price data") := by
  intro sq f p
  by_cases h : p.length < 50
  · unfold analyze_stock
    rw [if_pos h]
    refine ⟨⟨?_, ?_⟩, fun _ => rfl⟩
    · rintro ⟨r, hr⟩
      exact absurd hr (by simp)
    · intro hle
      omega
  · unfold analyze_stock
    rw [if_neg h]
    exact ⟨⟨fun _ => by omega, fun _ => ⟨_, rfl⟩⟩, fun hlt => absurd hlt h⟩

/-- C3 witness: a 3-element series is rejected with the error message. -/
theorem analyze_stock_error_iff_witness :
    ([(1:ℚ), 2, 3].length < 50)
  ∧ analyze_stock (fun _ => 0) (fun _ => "") [1, 2, 3]
      = .error "Need at least 50 days of price data" :=
  ⟨by decide, (analyze_stock_error_iff (fun _ => 0) (fun _ => "") [1, 2, 3]).2 (by decide)⟩

/-! ### Momentum (claim C4) -/

/-- C4 counterexample: on the 3-element series [1,2,3] (shorter than the
10-observation window) the momentum computation yields the sentinel value 0,
not a null/None value — its type is numeric and the fallback branch is
`else 0`. -/
theorem momentum_sentinel_counterexample :
    ([(1:ℚ), 2, 3].length ≤ 10) ∧ momentumAt [1, 2, 3] 10 = 0 := by
  decide

/-- C4 (amended): the code's momentum with window k (k = 10, 20 in
analyze_stock) equals the spec formula (last - prices[-1-lag]) /
prices[-1-lag] * 100 for lag = k - 1 whenever len(prices) >= k, and for
shorter series it yields the sentinel 0 rather than null. -/
theorem momentum_spec : ∀ (prices : List ℚ) (lag : ℕ),
    (lag + 1 ≤ prices.length →
      momentumAt prices (lag + 1) =
        (prices.getD (prices.length - 1) 0 - prices.getD (prices.length - 1 - lag) 0) /
          prices.getD (prices.length - 1 - lag) 0 * 100)
  ∧ (∀ k, prices.length < k → momentumAt prices k = 0) := by
  intro p lag
  constructor
  · intro h
    have hidx : p.length - (lag + 1) = p.length - 1 - lag := by omega
    unfold momentumAt
    rw [if_pos h, hidx]
  · intro k hk
    unfold momentumAt
    rw [if_neg (by omega)]

/-- C4 witness: momentum with window 2 on [1,2,4] is (4-2)/2*100 = 100, and
window 9 on the 2-element series [5,6] yields the sentinel 0. -/
theorem momentum_spec_witness :
    (1 + 1 ≤ [(1:ℚ), 2, 4].length)
  ∧ momentumAt [(1:ℚ), 2, 4] 2 = 100
  ∧ ([(5:ℚ), 6].length < 9 ∧ momentumAt [(5:ℚ), 6] 9 = 0) := by
  refine ⟨by decide, ?_, by decide, (momentum_spec [5, 6] 0).2 9 (by decide)⟩
  have h := (momentum_spec [1, 2, 4] 1).1 (by decide)
  rw [h]
  norm_num [List.getD]

/-! ### Risk classification (claim C6) -/

/-- C6 counterexample: at volatility 0 and RSI exactly 0 the claim's HIGH
condition holds (RSI < 25), but `rsi and (...)` treats the zero RSI as falsy
and the code returns LOW. -/
theorem assess_risk_zero_rsi_counterexample :
    ((0:ℚ) < 25) ∧ assess_risk 0 (some 0) = RiskLevel.LOW ∧
    assess_risk 0 (some 0) ≠ RiskLevel.HIGH := by
  decide

/-- C6 (amended): for every volatility and every non-null, non-zero RSI the
classification is HIGH iff vol% > 5 or RSI < 25 or RSI > 75, else MEDIUM iff
vol% > 3 or RSI < 35 or RSI > 65, else LOW, with the HIGH test first; when
the RSI is null or exactly 0 the RSI clauses are skipped and only the
volatility thresholds apply. -/
theorem assess_risk_spec :
    (∀ vol r : ℚ, r ≠ 0 →
        ((assess_risk vol (some r) = .HIGH ↔ (5 < vol ∨ r < 25 ∨ 75 < r))
      ∧ (assess_risk vol (some r) = .MEDIUM ↔
          (¬(5 < vol ∨ r < 25 ∨ 75 < r) ∧ (3 < vol ∨ r < 35 ∨ 65 < r)))
      ∧ (assess_risk vol (some r) = .LOW ↔
          (¬(5 < vol ∨ r < 25 ∨ 75 < r) ∧ ¬(3 < vol ∨ r < 35 ∨ 65 < r)))))
  ∧ (∀ vol : ℚ, assess_risk vol none = assess_risk vol (some 0)) := by
  constructor
  · intro vol r hr
    have ht : truthy (some r) = true := by simp [truthy, hr]
    unfold assess_risk
    simp only [ht, Option.getD_some, true_and]
    split_ifs with h1 h2 <;> refine ⟨?_, ?_, ?_⟩ <;> simp_all
  · intro vol
    unfold assess_risk
    simp [truthy]

/-- C6 witness: RSI 80 (non-zero) with volatility 0 classifies HIGH. -/
theorem assess_risk_spec_witness :
    ((80:ℚ) ≠ 0) ∧ assess_risk 0 (some 80) = RiskLevel.HIGH :=
  ⟨by norm_num, ((assess_risk_spec.1 0 80 (by norm_num)).1).mpr (by norm_num)⟩

/-! ### The MACD signal-line shortcut (claim C1) -/

/-- The concrete linearly rising 35-element price series 1, 2, ..., 35. -/
def c1Input : List ℚ :=
  [1, 2, 3, 4, 5, 6, 7, 8, 9, 10, 11, 12, 13, 14, 15, 16, 17, 18,
   19, 20, 21, 22, 23, 24, 25, 26, 27, 28, 29, 30, 31, 32, 33, 34, 35]

/-- C1: on the 35-element linear series the code's MACD is 7 and its signal
line is 0.9 * 7 = 6.3, while the true 9-period EMA of the macd-line history
mandated by the spec (and by the code's own comment, which calls the signal
line a 9-period EMA of MACD) is 7; the shortcut therefore disagrees with the
documented value. -/
theorem macd_signal_line_shortcut :
    calculate_macd c1Input = some ⟨7, 63/10, 7/10⟩
  ∧ specSignalLine c1Input = some 7
  ∧ Option.map MacdData.signal (calculate_macd c1Input) ≠ specSignalLine c1Input := by
  have h12 : calculate_ema c1Input 12 = some (59/2) := by
    norm_num [calculate_ema, mean, c1Input]
  have h26 : calculate_ema c1Input 26 = some (45/2) := by
    norm_num [calculate_ema, mean, c1Input]
  have h1 : calculate_macd c1Input = some ⟨7, 63/10, 7/10⟩ := by
    unfold calculate_macd
    rw [if_neg (by norm_num [c1Input]), h12, h26]
    norm_num
  have e26 : macdAt (c1Input.take 26) = 7 := by norm_num [macdAt, calculate_ema, mean, c1Input]
  have e27 : macdAt (c1Input.take 27) = 7 := by norm_num [macdAt, calculate_ema, mean, c1Input]
  have e28 : macdAt (c1Input.take 28) = 7 := by norm_num [macdAt, calculate_ema, mean, c1Input]
  have e29 : macdAt (c1Input.take 29) = 7 := by norm_num [macdAt, calculate_ema, mean, c1Input]
  have e30 : macdAt (c1Input.take 30) = 7 := by norm_num [macdAt, calculate_ema, mean, c1Input]
  have e31 : macdAt (c1Input.take 31) = 7 := by norm_num [macdAt, calculate_ema, mean, c1Input]
  have e32 : macdAt (c1Input.take 32) = 7 := by norm_num [macdAt, calculate_ema, mean, c1Input]
  have e33 : macdAt (c1Input.take 33) = 7 := by norm_num [macdAt, calculate_ema, mean, c1Input]
  have e34 : macdAt (c1Input.take 34) = 7 := by norm_num [macdAt, calculate_ema, mean, c1Input]
  have e35 : macdAt (c1Input.take 35) = 7 := by norm_num [macdAt, calculate_ema, mean, c1Input]
  have hr : List.range 10 = [0, 1, 2, 3, 4, 5, 6, 7, 8, 9] := rfl
  have hlen : c1Input.length - 25 = 10 := rfl
  have hhist : macdLineHistory c1Input = [7, 7, 7, 7, 7, 7, 7, 7, 7, 7] := by
    unfold macdLineHistory
    rw [hlen, hr]
    simp only [List.map_cons, List.map_nil, Nat.reduceAdd]
    rw [e26, e27, e28, e29, e30, e31, e32, e33, e34, e35]
  have h2 : specSignalLine c1Input = some 7 := by
    unfold specSignalLine
    rw [hhist]
    norm_num [calculate_ema, mean]
  refine ⟨h1, h2, ?_⟩
  rw [h1, h2]
  intro hEq
  have h3 := Option.some.inj hEq
  norm_num at h3

/-! ### RSI (claims C5 and C10) -/

/-- The gains list has one element per consecutive pair of prices. -/
lemma gains_length (p : List ℚ) : (gains p).length = p.length - 1 := by
  simp only [gains, deltas, List.length_map, List.length_zipWith, List.length_tail]
  omega

/-- Every entry of the gains list is non-negative. -/
lemma gains_nonneg (p : List ℚ) : ∀ x ∈ gains p, 0 ≤ x := by
  intro x hx
  obtain ⟨c, _, rfl⟩ := List.mem_map.mp hx
  split_ifs with h
  · exact le_of_lt h
  · exact le_refl 0

/-- Every entry of the losses list is non-negative. -/
lemma losses_nonneg (p : List ℚ) : ∀ x ∈ losses p, 0 ≤ x := by
  intro x hx
  obtain ⟨c, _, rfl⟩ := List.mem_map.mp hx
  split_ifs with h
  · exact le_refl 0
  · simpa using not_lt.mp h

/-- avg_gain is non-negative. -/
lemma avgGain_nonneg (p : List ℚ) (period : ℕ) : 0 ≤ avgGain p period :=
  mean_nonneg _ (fun x hx => gains_nonneg p x (List.mem_of_mem_drop hx))

/-- avg_loss is non-negative. -/
lemma avgLoss_nonneg (p : List ℚ) (period : ℕ) : 0 ≤ avgLoss p period :=
  mean_nonneg _ (fun x hx => losses_nonneg p x (List.mem_of_mem_drop hx))

/-- On a sufficiently long series, calculate_rsi returns the closed-form
value: 100 when the average loss vanishes, otherwise the RS formula. -/
lemma rsi_closed_form (p : List ℚ) (period : ℕ) (h : period + 1 ≤ p.length) :
    calculate_rsi p period =
      some (if avgLoss p period = 0 then 100
            else 100 - 100 / (1 + avgGain p period / avgLoss p period)) := by
  unfold calculate_rsi
  rw [if_neg (by omega), if_neg (by rw [gains_length]; omega)]
  split_ifs <;> rfl

/-- On a non-decreasing series every day-over-day delta is non-negative. -/
lemma deltas_nonneg_of_monotone (p : List ℚ) (h : p.Pairwise (· ≤ ·)) :
    ∀ d ∈ deltas p, 0 ≤ d := by
  induction p with
  | nil => intro d hd; simp [deltas] at hd
  | cons a t ih =>
    intro d hd
    cases t with
    | nil => simp [deltas] at hd
    | cons b t' =>
      have hd' : d ∈ (b - a) :: deltas (b :: t') := hd
      rcases List.pairwise_cons.mp h with ⟨hab, hp⟩
      rcases List.mem_cons.mp hd' with h1 | h1
      · rw [h1]
        exact sub_nonneg.mpr (hab b (List.mem_cons_self _ _))
      · exact ih hp d h1

/-- On a non-decreasing series every entry of the losses list is zero. -/
lemma losses_eq_zero_of_monotone (p : List ℚ) (h : p.Pairwise (· ≤ ·)) :
    ∀ x ∈ losses p, x = 0 := by
  intro x hx
  obtain ⟨c, hc, rfl⟩ := List.mem_map.mp hx
  have hc0 := deltas_nonneg_of_monotone p h c hc
  split_ifs with hpos
  · rfl
  · have : c = 0 := le_antisymm (not_lt.mp hpos) hc0
    rw [this, neg_zero]

/-- On a non-decreasing series the average loss is zero. -/
lemma avgLoss_eq_zero_of_monotone (p : List ℚ) (period : ℕ)
    (h : p.Pairwise (· ≤ ·)) : avgLoss p period = 0 :=
  mean_eq_zero _ (fun x hx =>
    losses_eq_zero_of_monotone p h x (List.mem_of_mem_drop hx))

/-- C5 (amended): in the pure-Python agent's calculate_rsi (ml_agent_lite;
the stock-data variant has the same avg_loss == 0 guard), for a series of at
least period+1 prices the code averages the last `period` gains and losses
and returns 100 exactly when the average loss is 0 — in particular on every
non-decreasing (hence every constant) series — and otherwise
100 - 100/(1 + avgGain/avgLoss); shorter series yield none rather than an
exception.  The pandas TechnicalAnalyzer variant lacks the guard and is not
covered by this statement: see the counterexample below. -/
theorem rsi_spec : ∀ (prices : List ℚ) (period : ℕ),
    (prices.length < period + 1 → calculate_rsi prices period = none)
  ∧ (period + 1 ≤ prices.length →
      calculate_rsi prices period =
        some (if avgLoss prices period = 0 then 100
              else 100 - 100 / (1 + avgGain prices period / avgLoss prices period)))
  ∧ (period + 1 ≤ prices.length → prices.Pairwise (· ≤ ·) →
      calculate_rsi prices period = some 100) := by
  intro p period
  refine ⟨?_, rsi_closed_form p period, ?_⟩
  · intro h
    unfold calculate_rsi
    rw [if_pos h]
  · intro h hmono
    rw [rsi_closed_form p period h, avgLoss_eq_zero_of_monotone p period hmono]
    simp

/-- C5 witness: a 2-element series is too short for period 14; on [2,1,2]
with period 2 the closed form gives (avgGain, avgLoss) = (1/2, 1/2) and
RSI 50; on a constant 15-element series the RSI is exactly 100. -/
theorem rsi_spec_witness :
    calculate_rsi ([1, 2] : List ℚ) 14 = none
  ∧ calculate_rsi ([2, 1, 2] : List ℚ) 2 = some 50
  ∧ calculate_rsi (List.replicate 15 (7:ℚ)) 14 = some 100 := by
  refine ⟨(rsi_spec [1, 2] 14).1 (by decide), ?_,
    (rsi_spec (List.replicate 15 (7:ℚ)) 14).2.2 (by decide) (by decide)⟩
  have h := (rsi_spec [2, 1, 2] 2).2.1 (by decide)
  rw [h]
  norm_num [avgGain, avgLoss, gains, losses, deltas, mean, List.filter]

/-- C5 counterexample: the claim's other cited implementation,
TechnicalAnalyzer.calculate_rsi (technical_analysis.py:44-50), has no
avg_loss == 0 guard.  On the constant 15-element series both rolling
averages are 0, rs = 0/0 is NaN, and the returned RSI is NaN — not the 100
the claim requires for a constant series. -/
theorem ta_rsi_constant_counterexample :
    ta_calculate_rsi_last (List.replicate 15 (7:ℚ)) 14 = XFloat.nan
  ∧ XFloat.nan ≠ XFloat.val 100 := by
  refine ⟨?_, by decide⟩
  have hgain : gains (List.replicate 15 (7:ℚ)) = List.replicate 14 0 := by
    norm_num [gains, deltas, List.replicate]
  have hloss : losses (List.replicate 15 (7:ℚ)) = List.replicate 14 0 := by
    norm_num [losses, deltas, List.replicate]
  have hlist : (0 :: List.replicate 14 (0:ℚ)).drop ((0 :: List.replicate 14 (0:ℚ)).length - 14)
      = List.replicate 14 0 := by
    simp
  have hm0 : mean (List.replicate 14 (0:ℚ)) = 0 :=
    mean_eq_zero _ (fun x hx => List.eq_of_mem_replicate hx)
  unfold ta_calculate_rsi_last
  rw [if_neg (by norm_num)]
  simp only [hgain, hloss, hlist, hm0]
  rfl

/-- C10: whenever calculate_rsi returns a numeric value, that value lies in
the closed interval [0, 100]. -/
theorem rsi_bounded : ∀ (prices : List ℚ) (period : ℕ) (r : ℚ),
    calculate_rsi prices period = some r → 0 ≤ r ∧ r ≤ 100 := by
  intro p period r h
  unfold calculate_rsi at h
  by_cases h1 : p.length < period + 1
  · rw [if_pos h1] at h
    exact absurd h (by simp)
  rw [if_neg h1] at h
  by_cases h2 : (gains p).length < period
  · rw [if_pos h2] at h
    exact absurd h (by simp)
  rw [if_neg h2] at h
  by_cases h3 : avgLoss p period = 0
  · rw [if_pos h3] at h
    obtain rfl : (100 : ℚ) = r := Option.some.inj h
    norm_num
  · rw [if_neg h3] at h
    obtain rfl : 100 - 100 / (1 + avgGain p period / avgLoss p period) = r :=
      Option.some.inj h
    have hal : 0 < avgLoss p period := lt_of_le_of_ne (avgLoss_nonneg p period) (Ne.symm h3)
    have hrs : 0 ≤ avgGain p period / avgLoss p period :=
      div_nonneg (avgGain_nonneg p period) (le_of_lt hal)
    have hle : 100 / (1 + avgGain p period / avgLoss p period) ≤ 100 :=
      div_le_self (by norm_num) (by linarith)
    have hpos : 0 ≤ 100 / (1 + avgGain p period / avgLoss p period) :=
      div_nonneg (by norm_num) (by linarith)
    constructor <;> linarith

/-- C10 witness: on [2,1,2] with period 2 the RSI is 50, inside [0, 100]. -/
theorem rsi_bounded_witness :
    calculate_rsi ([2, 1, 2] : List ℚ) 2 = some 50 ∧ (0 ≤ (50:ℚ) ∧ (50:ℚ) ≤ 100) := by
  have h : calculate_rsi ([2, 1, 2] : List ℚ) 2 = some 50 := by
    rw [rsi_closed_form [2, 1, 2] 2 (by decide)]
    norm_num [avgGain, avgLoss, gains, losses, deltas, mean]
  exact ⟨h, rsi_bounded [2, 1, 2] 2 50 h⟩

/-! ### MACD algebra (claim C9) -/

/-- A series at least as long as the period always has an EMA. -/
lemma ema_isSome (prices : List ℚ) (period : ℕ) (h : period ≤ prices.length) :
    ∃ v, calculate_ema prices period = some v := by
  unfold calculate_ema
  rw [if_neg (by omega)]
  exact ⟨_, rfl⟩

/-- C9: on every series of at least 26 prices calculate_macd succeeds with
signal = 0.9 * macd and histogram = macd / 10 exactly, so the MACD signal
emitted in analyze_stock is buy precisely when the macd line is strictly
positive and sell otherwise. -/
theorem macd_histogram_sign : ∀ prices : List ℚ, 26 ≤ prices.length →
    ∃ m, calculate_macd prices = some m
      ∧ m.signal = (9/10) * m.macd
      ∧ m.histogram = m.macd / 10
      ∧ (macdSignal m = .buy ↔ 0 < m.macd)
      ∧ (macdSignal m = .sell ↔ m.macd ≤ 0) := by
  intro p h
  obtain ⟨e12, h12⟩ := ema_isSome p 12 (by omega)
  obtain ⟨e26, h26⟩ := ema_isSome p 26 (by omega)
  unfold calculate_macd
  rw [if_neg (by omega), h12, h26]
  refine ⟨_, rfl, by ring, by ring, ?_, ?_⟩
  · unfold macdSignal
    constructor
    · intro hb
      by_contra hc
      push_neg at hc
      rw [if_neg (by simp only; nlinarith)] at hb
      exact absurd hb (by simp)
    · intro hm
      rw [if_pos (by simp only; nlinarith)]
  · unfold macdSignal
    constructor
    · intro hs
      by_contra hc
      push_neg at hc
      rw [if_pos (by simp only; nlinarith)] at hs
      exact absurd hs (by simp)
    · intro hm
      rw [if_neg (by simp only; nlinarith)]

/-- C9 witness: the constant 26-element series has a MACD record, with
macd = 0, so the emitted direction is sell. -/
theorem macd_histogram_sign_witness :
    26 ≤ (List.replicate 26 (1:ℚ)).length
  ∧ ∃ m, calculate_macd (List.replicate 26 (1:ℚ)) = some m
      ∧ m.signal = (9/10) * m.macd
      ∧ m.histogram = m.macd / 10
      ∧ (macdSignal m = .buy ↔ 0 < m.macd)
      ∧ (macdSignal m = .sell ↔ m.macd ≤ 0) :=
  ⟨by decide, macd_histogram_sign (List.replicate 26 (1:ℚ)) (by decide)⟩

/-! ### Golden cross (claim C7) -/

/-- Pandas-style a <= b is false whenever the right side is NaN. -/
lemma optLE_none_right (x : Option ℚ) : optLE x none = false := by
  cases x <;> rfl

/-- Pandas-style a <= b on two defined values is the rational comparison. -/
lemma optLE_some_some (a b : ℚ) : optLE (some a) (some b) = decide (a ≤ b) := rfl

/-- The sum of a nonempty list of values all below c is below length * c. -/
lemma sum_lt_length_mul (l : List ℚ) (c : ℚ) (hne : l ≠ []) (h : ∀ x ∈ l, x < c) :
    l.sum < (l.length : ℚ) * c := by
  induction l with
  | nil => exact absurd rfl hne
  | cons a t ih =>
    rcases eq_or_ne t [] with rfl | hne'
    · simpa using h a (List.mem_cons_self _ _)
    · have ht := ih hne' (fun x hx => h x (List.mem_cons_of_mem _ hx))
      have ha := h a (List.mem_cons_self _ _)
      simp only [List.sum_cons, List.length_cons]
      push_cast
      linarith

/-- The sum of a list of values all at least c is at least length * c. -/
lemma length_mul_le_sum (l : List ℚ) (c : ℚ) (h : ∀ x ∈ l, c ≤ x) :
    (l.length : ℚ) * c ≤ l.sum := by
  induction l with
  | nil => simp
  | cons a t ih =>
    have ht := ih (fun x hx => h x (List.mem_cons_of_mem _ hx))
    have ha := h a (List.mem_cons_self _ _)
    simp only [List.sum_cons, List.length_cons]
    push_cast
    linarith

/-- In a strictly increasing 200-element window, the mean of the last 50
elements strictly exceeds the mean of the whole window. -/
lemma mean_lt_mean_drop (w : List ℚ) (hw : w.Pairwise (· < ·))
    (hlen : w.length = 200) : mean w < mean (w.drop 150) := by
  have htb : (w.drop 150).length = 50 := by rw [List.length_drop, hlen]
  have hta : (w.take 150).length = 150 := by rw [List.length_take, hlen]; omega
  obtain ⟨c, b', hb⟩ : ∃ c b', w.drop 150 = c :: b' := by
    cases hd : w.drop 150 with
    | nil => rw [hd] at htb; simp at htb
    | cons c b' => exact ⟨c, b', rfl⟩
  have hsplit := List.take_append_drop 150 w
  have hpw2 : (w.take 150 ++ w.drop 150).Pairwise (· < ·) := by rw [hsplit]; exact hw
  rcases List.pairwise_append.mp hpw2 with ⟨hpa, hpb, hcross⟩
  have hcb : ∀ y ∈ w.drop 150, c ≤ y := by
    intro y hy
    rw [hb] at hy hpb
    rcases List.mem_cons.mp hy with rfl | hy'
    · exact le_refl _
    · exact le_of_lt ((List.pairwise_cons.mp hpb).1 y hy')
  have hca : ∀ x ∈ w.take 150, x < c := fun x hx =>
    hcross x hx c (by rw [hb]; exact List.mem_cons_self _ _)
  have hane : w.take 150 ≠ [] := by
    intro hnil
    rw [hnil] at hta
    simp at hta
  have hsa := sum_lt_length_mul (w.take 150) c hane hca
  have hsb := length_mul_le_sum (w.drop 150) c hcb
  rw [hta] at hsa
  rw [htb] at hsb
  have hsum : w.sum = (w.take 150).sum + (w.drop 150).sum := by
    conv_lhs => rw [← hsplit]
    rw [List.sum_append]
  have hwne : w ≠ [] := by
    intro hnil
    rw [hnil] at hlen
    simp at hlen
  have hbne : w.drop 150 ≠ [] := by rw [hb]; simp
  rw [mean_of_ne_nil w hwne, mean_of_ne_nil _ hbne, hlen, htb]
  rw [div_lt_div_iff₀ (by norm_num) (by norm_num)]
  push_cast at hsa hsb ⊢
  linarith

/-- On a strictly increasing series, wherever the 200-observation rolling
mean is defined, the 50-observation rolling mean strictly exceeds it. -/
lemma sma50_gt_sma200 (xs : List ℚ) (hs : xs.Pairwise (· < ·)) (j : ℕ)
    (hj : j < xs.length) (h200 : 200 ≤ j + 1) :
    ∃ a b, rollingMeanAt xs 200 j = some a ∧ rollingMeanAt xs 50 j = some b ∧ a < b := by
  have htk : (xs.take (j+1)).length = j + 1 := by rw [List.length_take]; omega
  have hw : ((xs.take (j+1)).drop (j+1-200)).length = 200 := by
    rw [List.length_drop, htk]; omega
  have hpw : ((xs.take (j+1)).drop (j+1-200)).Pairwise (· < ·) :=
    List.Pairwise.sublist ((List.drop_sublist _ _).trans (List.take_sublist _ _)) hs
  have hidx : j + 1 - 50 = (j + 1 - 200) + 150 := by omega
  have hdd : (xs.take (j+1)).drop (j+1-50) = ((xs.take (j+1)).drop (j+1-200)).drop 150 := by
    rw [List.drop_drop, ← hidx]
  have hkey := mean_lt_mean_drop _ hpw hw
  rw [← hdd] at hkey
  refine ⟨_, _, ?_, ?_, hkey⟩
  · unfold rollingMeanAt
    rw [if_pos ⟨h200, hj⟩]
  · unfold rollingMeanAt
    rw [if_pos ⟨by omega, hj⟩]

/-- C7: the golden-cross detector never fires on a strictly increasing price
series (no SMA-50 / SMA-200 ordering flip exists at any of the checked
offsets once both windows are full, and partial windows compare as NaN,
i.e. false), and it returns false outright for series shorter than 200. -/
theorem golden_cross_monotone : ∀ close : List ℚ,
    (close.Pairwise (· < ·) → check_golden_cross close = false)
  ∧ (close.length < 200 → check_golden_cross close = false) := by
  intro close
  by_cases hlen : close.length < 200
  · constructor
    · intro _
      unfold check_golden_cross
      rw [if_pos hlen]
    · intro _
      unfold check_golden_cross
      rw [if_pos hlen]
  · push_neg at hlen
    refine ⟨?_, fun h => absurd h (by omega)⟩
    intro hs
    unfold check_golden_cross
    rw [if_neg (by omega)]
    rw [List.any_eq_false]
    intro i hi
    simp only [Bool.not_eq_true]
    have hi' := List.mem_range'_1.mp hi
    have hm : min 6 close.length = 6 := by omega
    rw [hm] at hi'
    unfold crossCondAt
    by_cases hc : 200 ≤ close.length - i
    · obtain ⟨a, b, ha, hb, hab⟩ := sma50_gt_sma200 close hs (close.length - i - 1)
        (by omega) (by omega)
      rw [ha, hb, optLE_some_some, decide_eq_false (not_le.mpr hab), Bool.and_false]
    · have hnone : rollingMeanAt close 200 (close.length - i - 1) = none := by
        unfold rollingMeanAt
        rw [if_neg]
        rintro ⟨hh1, hh2⟩
        omega
      rw [hnone, optLE_none_right, Bool.and_false]

/-- C7 witness: the strictly increasing 205-element series 0, 1, ..., 204
triggers no golden cross, and a 3-element series returns false. -/
theorem golden_cross_monotone_witness :
    ((List.range 205).map (fun n => ((n : ℕ) : ℚ))).Pairwise (· < ·)
  ∧ check_golden_cross ((List.range 205).map (fun n => ((n : ℕ) : ℚ))) = false
  ∧ ([(1:ℚ), 2, 3].length < 200 ∧ check_golden_cross [(1:ℚ), 2, 3] = false) := by
  have hpw : ((List.range 205).map (fun n => ((n : ℕ) : ℚ))).Pairwise (· < ·) :=
    List.Pairwise.map _ (fun a b hab => by exact_mod_cast hab)
      (List.pairwise_lt_range 205)
  exact ⟨hpw, (golden_cross_monotone _).1 hpw, by decide,
    (golden_cross_monotone _).2 (by decide)⟩

/-! ### The rationale builder (claim C8) -/

/-- The RSI block yields no clause exactly when the RSI is falsy. -/
lemma rsiClause_nil (fmt : ℚ → String) (rsi : Option ℚ) :
    rsiClause fmt rsi = [] ↔ truthy rsi = false := by
  unfold rsiClause
  split_ifs <;> simp_all

/-- The MA block yields no clause exactly when either average is falsy. -/
lemma maClause_nil (sma20 sma50 : Option ℚ) :
    maClause sma20 sma50 = [] ↔ ¬(truthy sma20 = true ∧ truthy sma50 = true) := by
  unfold maClause
  split_ifs <;> simp_all

/-- The MACD block yields no clause exactly when the MACD is absent. -/
lemma macdClause_nil (macd_data : Option MacdData) :
    macdClause macd_data = [] ↔ macd_data = none := by
  cases macd_data with
  | none => simp [macdClause]
  | some m =>
    have he : macdClause (some m)
        = if 0 < m.histogram then ["✓ MACD bullish"] else ["✗ MACD bearish"] := rfl
    rw [he]
    split_ifs <;> simp

/-- The Bollinger block yields no clause exactly when the bands are absent,
the price is falsy, or the price lies inside the bands. -/
lemma bbClause_nil (bb : Option BBands) (price : ℚ) :
    bbClause bb price = []
      ↔ ∀ b, bb = some b → price = 0 ∨ (b.lower ≤ price ∧ price ≤ b.upper) := by
  cases bb with
  | none => simp [bbClause]
  | some b =>
    have he : bbClause (some b) price =
        if price ≠ 0 then
          if price < b.lower then ["💡 Price below lower BB"]
          else if b.upper < price then ["⚠️ Price above upper BB"]
          else []
        else [] := rfl
    rw [he]
    by_cases hp : price = 0
    · simp [hp]
    · rw [if_pos hp]
      constructor
      · intro hx b' hb'
        obtain rfl : b = b' := Option.some.inj hb'
        right
        by_cases h1 : price < b.lower
        · rw [if_pos h1] at hx
          exact absurd hx (by simp)
        · rw [if_neg h1] at hx
          by_cases h2 : b.upper < price
          · rw [if_pos h2] at hx
            exact absurd hx (by simp)
          · exact ⟨not_lt.mp h1, not_lt.mp h2⟩
      · intro hR
        rcases hR b rfl with h0 | ⟨hl, hu⟩
        · exact absurd h0 hp
        · rw [if_neg (not_lt.mpr hl), if_neg (not_lt.mpr hu)]

/-- The momentum block yields no clause exactly when |momentum| <= 5. -/
lemma momentumClause_nil (momentum : ℚ) :
    momentumClause momentum = [] ↔ |momentum| ≤ 5 := by
  unfold momentumClause
  split_ifs with h <;> simp_all [not_lt]

/-- C8 counterexample: with no indicator available at all, the rationale
builder returns the empty string, not an "insufficient data" clause. -/
theorem reasoning_empty_counterexample :
    generate_reasoning (fun _ => "") none none none none none 0 0 0 = "" := by
  rfl

/-- C8 (amended): the rationale builder is a pure function of the indicator
set rendering one clause per contributing indicator in the fixed source
order joined by the fixed separator; when zero indicators contribute (RSI
falsy, an MA falsy, MACD absent, bands absent / price falsy / price inside
the bands, |momentum| <= 5) the clause list is empty and the rendered
string is the empty string rather than an "insufficient data" clause. -/
theorem reasoning_spec : ∀ (fmt : ℚ → String) (rsi sma20 sma50 : Option ℚ)
    (macd_data : Option MacdData) (bb : Option BBands) (price momentum volatility : ℚ),
    generate_reasoning fmt rsi sma20 sma50 macd_data bb price momentum volatility
      = String.intercalate " | "
          (reasonClauses fmt rsi sma20 sma50 macd_data bb price momentum)
  ∧ (reasonClauses fmt rsi sma20 sma50 macd_data bb price momentum = []
      ↔ (truthy rsi = false
        ∧ ¬(truthy sma20 = true ∧ truthy sma50 = true)
        ∧ macd_data = none
        ∧ (∀ b, bb = some b → price = 0 ∨ (b.lower ≤ price ∧ price ≤ b.upper))
        ∧ |momentum| ≤ 5)) := by
  intro fmt rsi sma20 sma50 macd_data bb price momentum volatility
  refine ⟨rfl, ?_⟩
  unfold reasonClauses
  simp only [List.append_eq_nil]
  rw [rsiClause_nil, maClause_nil, macdClause_nil, bbClause_nil, momentumClause_nil]
  tauto

/-- C8 witness: the all-absent indicator set produces the empty clause
list. -/
theorem reasoning_spec_witness :
    reasonClauses (fun _ => "x") none none none none none 0 0 = [] := by
  refine (reasoning_spec (fun _ => "x") none none none none none 0 0 0).2.mpr
    ⟨rfl, by simp [truthy], rfl, ?_, by norm_num⟩
  intro b hb
  exact absurd hb (by simp)

end StockBot
